import Mathlib

/-!
# AML Fraud Detection System — shallow embedding

This file embeds the core of the AML fraud-detection server
(`server/src/database/sqlite_connector.py`,
`server/src/services/transaction_service.py`,
`server/src/services/fraud_service.py`,
`server/src/routes/fraud_detection.py`) as executable Lean definitions
and proves properties of the transaction pipeline, the risk scorer,
the subgraph extractor, the ring detector and the appeal workflow.

Modelling conventions:
* SQLite `REAL` amounts, balances and risk scores are rationals (`ℚ`).
* Timestamps are rationals measured in hours, so the SQL predicate
  `timestamp >= datetime('now', '-H hours')` becomes `now - H ≤ timestamp`.
* The `users`, `transactions` and `appeals` tables are lists of records;
  row lookup by primary key is `List.find?`, `UPDATE ... WHERE user_id = ?`
  is a `List.map` that patches the matching rows, `INSERT` is an append.
* Python dict/set iteration that only feeds order-insensitive
  aggregations (sums, counts, maxima) keeps the underlying list order.
-/

namespace AML

/-- A row of the `users` table (the fields the core logic reads). -/
structure User where
  user_id : String
  name : String
  risk_score : ℚ
  account_age_days : Nat
  status : String
  balance : ℚ
deriving Repr, DecidableEq

/-- A row of the `transactions` table (the fields the core logic reads). -/
structure Txn where
  id : Nat
  source_user_id : String
  target_user_id : String
  amount : ℚ
  currency : String
  transaction_type : String
  timestamp : ℚ
  status : String
  is_suspicious : Nat
  ai_risk_score : ℚ
deriving Repr, DecidableEq

/-- A row of the `appeals` table. -/
structure Appeal where
  id : Nat
  user_id : String
  justification : String
  status : String
  created_at : ℚ
  reviewed_at : Option ℚ
deriving Repr, DecidableEq

/-- The SQLite database state. -/
structure DB where
  users : List User
  transactions : List Txn
  appeals : List Appeal
deriving Repr, DecidableEq

/-- `SQLiteConnector.get_user_by_id`: `SELECT * FROM users WHERE user_id = ?`. -/
def get_user_by_id (db : DB) (uid : String) : Option User :=
  db.users.find? (fun u => decide (u.user_id = uid))

/-- `SQLiteConnector.update_user_status`:
`UPDATE users SET status = ? WHERE user_id = ?`. -/
def update_user_status (db : DB) (uid : String) (status : String) : DB :=
  { db with users :=
      db.users.map (fun u => if u.user_id = uid then { u with status := status } else u) }

/-- The balance `UPDATE` issued inline by `TransactionService.create_transaction`
and the deposit route: `UPDATE users SET balance = ? WHERE user_id = ?`. -/
def update_user_balance (db : DB) (uid : String) (b : ℚ) : DB :=
  { db with users :=
      db.users.map (fun u => if u.user_id = uid then { u with balance := b } else u) }

/-- `SQLiteConnector.add_transaction`: generates the next transaction id from
`SELECT COUNT(*)` and inserts the row.  Returns the id and the new state. -/
def add_transaction (db : DB) (source_user_id target_user_id : String) (amount : ℚ)
    (currency transaction_type status : String) (is_suspicious : Nat)
    (ai_risk_score : ℚ) (now : ℚ) : Nat × DB :=
  let tx_id := db.transactions.length + 1
  (tx_id,
   { db with transactions := db.transactions ++
      [{ id := tx_id, source_user_id := source_user_id, target_user_id := target_user_id,
         amount := amount, currency := currency, transaction_type := transaction_type,
         timestamp := now, status := status, is_suspicious := is_suspicious,
         ai_risk_score := ai_risk_score }] })

/-- `SQLiteConnector.get_user_transactions_in_window`:
`SELECT * FROM transactions WHERE (source_user_id = ? OR target_user_id = ?)
AND timestamp >= datetime('now', '-H hours')`.  (The `ORDER BY timestamp DESC`
only affects presentation order, which no caller of this query depends on.) -/
def get_user_transactions_in_window (db : DB) (uid : String) (hours : ℚ) (now : ℚ) :
    List Txn :=
  db.transactions.filter (fun tx =>
    decide ((tx.source_user_id = uid ∨ tx.target_user_id = uid) ∧ now - hours ≤ tx.timestamp))

/-- The status of an account as stored (empty string when the row is absent). -/
def user_status (db : DB) (uid : String) : String :=
  ((get_user_by_id db uid).map User.status).getD ""

/-- The balance of an account as stored (0 when the row is absent). -/
def user_balance (db : DB) (uid : String) : ℚ :=
  ((get_user_by_id db uid).map User.balance).getD 0

/-! ## Subgraph extraction (`SQLiteConnector.get_user_subgraph`) -/

/-- One edge of the returned subgraph, as built by `get_user_subgraph`. -/
structure Link where
  source : String
  target : String
  amount : ℚ
  transaction_id : Nat
  transaction_type : String
deriving Repr, DecidableEq

/-- The `{nodes, links}` dictionary returned by `get_user_subgraph`. -/
structure Subgraph where
  nodes : List User
  links : List Link
deriving Repr, DecidableEq

/-- The neighbor query of one BFS round:
targets of transactions whose source is in the layer, union sources of
transactions whose target is in the layer.  (SQLite returns an empty result
for an empty `IN ()` list, so an empty layer yields no neighbors.) -/
def layer_neighbors (txs : List Txn) (layer : Finset String) : Finset String :=
  ((txs.filter (fun t => decide (t.source_user_id ∈ layer))).map Txn.target_user_id).toFinset ∪
  ((txs.filter (fun t => decide (t.target_user_id ∈ layer))).map Txn.source_user_id).toFinset

/-- One round of the layered BFS in `get_user_subgraph`: the next layer is
the neighbor set of the current layer minus already-visited nodes, and it is
added to the visited set. -/
def bfs_step (txs : List Txn) : Finset String × Finset String → Finset String × Finset String :=
  fun vc =>
    let next_layer := layer_neighbors txs vc.2 \ vc.1
    (vc.1 ∪ next_layer, next_layer)

/-- The visited set after `depth` BFS rounds seeded with the focal account. -/
def visited_at_depth (db : DB) (uid : String) (depth : Nat) : Finset String :=
  ((bfs_step db.transactions)^[depth] ({uid}, {uid})).1

/-- `SQLiteConnector.get_user_subgraph`: the visited accounts that exist in
the `users` table, plus every transaction with both endpoints visited. -/
def get_user_subgraph (db : DB) (uid : String) (depth : Nat) : Subgraph :=
  let visited := visited_at_depth db uid depth
  { nodes := db.users.filter (fun u => decide (u.user_id ∈ visited)),
    links := (db.transactions.filter
        (fun t => decide (t.source_user_id ∈ visited ∧ t.target_user_id ∈ visited))).map
      (fun t => { source := t.source_user_id, target := t.target_user_id,
                  amount := t.amount, transaction_id := t.id,
                  transaction_type := t.transaction_type }) }

/-! ## Risk scorer (`FraudService`) -/

/-- `FraudService._calculate_risk_score`: the fixed weighted blend of
base risk, neighbor risk, volume risk, high-value risk and structuring risk,
clamped to [0, 1]. -/
def calculate_risk_score (uid : String) (user : User) (subgraph : Subgraph) : ℚ :=
  let base_risk := user.risk_score
  let nodes := subgraph.nodes
  let links := subgraph.links
  let neighbor_risks := (nodes.filter (fun n => decide (n.user_id ≠ uid))).map User.risk_score
  let avg_neighbor_risk :=
    if neighbor_risks.length ≠ 0 then neighbor_risks.sum / neighbor_risks.length else 0.5
  let user_txs := links.filter (fun l => decide (l.source = uid ∨ l.target = uid))
  let tx_count := user_txs.length
  let volume_risk := min ((tx_count : ℚ) / 20) 1
  let amounts := user_txs.map Link.amount
  let max_amount := amounts.max?.getD 0
  let high_value_risk := min (max_amount / 100000) 1
  let structuring_count := amounts.countP (fun a => decide (9000 ≤ a ∧ a ≤ 9999))
  let structuring_risk := min ((structuring_count : ℚ) / 3) 1
  let combined_risk :=
    base_risk * 0.3 + avg_neighbor_risk * 0.25 + volume_risk * 0.15 +
      high_value_risk * 0.15 + structuring_risk * 0.15
  min (max combined_risk 0) 1

/-- Python's `round(x, 4)` applied to the blended score in
`FraudService.detect_fraud` (`risk_probability` field).  Python rounds
half-to-even on floats; ties at the fifth decimal do not arise in any
property proved here, so the integer rounding of `ℚ` is used. -/
def roundTo4 (x : ℚ) : ℚ := (round (x * 10000) : ℤ) / 10000

/-- The risk value produced by `FraudService.detect_fraud` for the live
decision path: `ValueError` for a missing user, otherwise the rounded blend
over the 2-hop subgraph.  (The pattern/factor fields of the returned dict do
not feed the transaction decision, which reads only `risk_probability`.) -/
def detect_fraud_risk (db : DB) (uid : String) : Except String ℚ :=
  match get_user_by_id db uid with
  | none => .error "User not found"
  | some user => .ok (roundTo4 (calculate_risk_score uid user (get_user_subgraph db uid 2)))

/-! ## Transaction service (`TransactionService`) -/

/-- `TransactionService._detect_structuring`: more than 2 transactions in
[9000, 9999] among the account's trailing 48-hour window plus the candidate
amount (counted once — the candidate is not yet inserted when the window is
queried). -/
def detect_structuring (db : DB) (uid : String) (current_amount : ℚ) (now : ℚ) : Bool :=
  let recent_txs := get_user_transactions_in_window db uid 48 now
  let structuring_count :=
    recent_txs.countP (fun tx => decide (9000 ≤ tx.amount ∧ tx.amount ≤ 9999))
  let final_count :=
    if 9000 ≤ current_amount ∧ current_amount ≤ 9999 then structuring_count + 1
    else structuring_count
  decide (final_count > 2)

/-- `TransactionService._detect_high_velocity`: more than 10 transactions in
the account's trailing 24-hour window. -/
def detect_high_velocity (db : DB) (uid : String) (now : ℚ) : Bool :=
  decide ((get_user_transactions_in_window db uid 24 now).length > 10)

/-- The dictionary returned by `TransactionService.create_transaction`. -/
structure TxResult where
  transaction_id : Nat
  status : String
  source_user_id : String
  target_user_id : String
  amount : ℚ
  ai_risk_score : ℚ
  structuring_detected : Bool
  account_frozen : Bool
  new_balance : ℚ
  message : String
deriving Repr, DecidableEq

/-- The `ai_risk_score` used by the processor: the scorer's value, falling
back to the source account's stored base risk when scoring fails. -/
def effective_risk (scorer : DB → String → Except String ℚ) (db : DB)
    (source_user_id : String) (source_user : User) : ℚ :=
  match scorer db source_user_id with
  | .ok r => r
  | .error _ => source_user.risk_score

/-- The processor's `should_flag` disjunction. -/
def should_flag_bool (scorer : DB → String → Except String ℚ) (db : DB)
    (source_user : User) (source_user_id : String) (amount : ℚ) (now : ℚ) : Bool :=
  detect_structuring db source_user_id amount now ||
    detect_high_velocity db source_user_id now ||
    decide (9000 ≤ amount ∧ amount ≤ 9999) ||
    decide (amount > 50000) ||
    decide (effective_risk scorer db source_user_id source_user > 0.7)

/-- The processor's final status decision. -/
def decided_status (scorer : DB → String → Except String ℚ) (db : DB)
    (source_user : User) (source_user_id : String) (amount : ℚ) (now : ℚ) : String :=
  if detect_structuring db source_user_id amount now then "BLOCKED"
  else if should_flag_bool scorer db source_user source_user_id amount now then "FLAGGED"
  else "APPROVED"

/-- The tail of `TransactionService.create_transaction` once the three
structural checks (existence, frozen source, balance) have passed:
scoring with fallback, policy checks, status decision, freeze side effect,
insert, and the APPROVED-only balance pair update. -/
def process_checked_transaction (scorer : DB → String → Except String ℚ) (db : DB)
    (source_user target_user : User) (source_user_id target_user_id : String)
    (amount : ℚ) (currency transaction_type : String) (now : ℚ) : DB × TxResult :=
  let ai_risk_score := effective_risk scorer db source_user_id source_user
  let structuring_detected := detect_structuring db source_user_id amount now
  let should_flag := should_flag_bool scorer db source_user source_user_id amount now
  let is_suspicious := if should_flag then 1 else 0
  let status := decided_status scorer db source_user source_user_id amount now
  let db1 :=
    if structuring_detected then update_user_status db source_user_id "FROZEN" else db
  let inserted := add_transaction db1 source_user_id target_user_id amount currency
    transaction_type status is_suspicious ai_risk_score now
  let db3 :=
    if status = "APPROVED" then
      update_user_balance
        (update_user_balance inserted.2 source_user_id (source_user.balance - amount))
        target_user_id (target_user.balance + amount)
    else inserted.2
  (db3,
    { transaction_id := inserted.1, status := status,
      source_user_id := source_user_id, target_user_id := target_user_id,
      amount := amount, ai_risk_score := ai_risk_score,
      structuring_detected := structuring_detected,
      account_frozen := structuring_detected,
      new_balance :=
        if status = "APPROVED" then source_user.balance - amount
        else source_user.balance,
      message :=
        if structuring_detected then "Account frozen due to structuring detection"
        else if should_flag then "Transaction flagged for compliance review"
        else "Transaction approved" })

/-- The transaction record inserted by the processor. -/
def inserted_txn (scorer : DB → String → Except String ℚ) (db : DB)
    (source_user : User) (source_user_id target_user_id : String) (amount : ℚ)
    (currency transaction_type : String) (now : ℚ) : Txn :=
  { id := db.transactions.length + 1,
    source_user_id := source_user_id, target_user_id := target_user_id,
    amount := amount, currency := currency, transaction_type := transaction_type,
    timestamp := now,
    status := decided_status scorer db source_user source_user_id amount now,
    is_suspicious :=
      if should_flag_bool scorer db source_user source_user_id amount now then 1 else 0,
    ai_risk_score := effective_risk scorer db source_user_id source_user }

/-- `TransactionService.create_transaction`.  The fraud scorer is the
injected collaborator (`self.fraud_service.detect_fraud`), modelled as a
function that may fail; the live instantiation is `detect_fraud_risk`.
Python raises `ValueError` for the three structural checks; here they are
`Except.error` with the corresponding message. -/
def create_transaction (scorer : DB → String → Except String ℚ) (db : DB)
    (source_user_id target_user_id : String) (amount : ℚ)
    (currency transaction_type : String) (now : ℚ) : Except String (DB × TxResult) :=
  match get_user_by_id db source_user_id with
  | none => .error "Source user not found"
  | some source_user =>
    match get_user_by_id db target_user_id with
    | none => .error "Target user not found"
    | some target_user =>
      if source_user.status = "FROZEN" then
        .error "Account is frozen. Cannot process transactions."
      else if source_user.balance < amount then
        .error "Insufficient balance"
      else
        .ok (process_checked_transaction scorer db source_user target_user
          source_user_id target_user_id amount currency transaction_type now)

/-! ## Ring detection (`SQLiteConnector.find_laundering_rings`) -/

/-- One adjacency-list entry: `{"target": ..., "amount": ...}`. -/
structure AdjEdge where
  target : String
  amount : ℚ
deriving Repr, DecidableEq

/-- One element of a ring path: `{"user_id": ..., "name": ...}`. -/
structure RingEntry where
  user_id : String
  name : String
deriving Repr, DecidableEq

/-- One ring as returned: the ordered account path and its length.  (The
`transactions` field of the Python dict is always the empty list.) -/
structure Ring where
  path : List RingEntry
  ring_length : Nat
deriving Repr, DecidableEq

/-- Insert one edge into the adjacency map, preserving Python dict insertion
order (new sources are appended; edges of a known source are appended to
its list). -/
def adj_insert (adj : List (String × List AdjEdge)) (src : String) (e : AdjEdge) :
    List (String × List AdjEdge) :=
  if adj.any (fun p => decide (p.1 = src)) then
    adj.map (fun p => if p.1 = src then (p.1, p.2 ++ [e]) else p)
  else adj ++ [(src, [e])]

/-- The adjacency map built by the full-table scan at the top of
`find_laundering_rings`. -/
def build_adj (txs : List Txn) : List (String × List AdjEdge) :=
  txs.foldl (fun adj t => adj_insert adj t.source_user_id ⟨t.target_user_id, t.amount⟩) []

/-- `adj.get(current, [])`. -/
def adj_get (adj : List (String × List AdjEdge)) (uid : String) : List AdjEdge :=
  ((adj.find? (fun p => decide (p.1 = uid))).map Prod.snd).getD []

/-- The recursive DFS inside `find_laundering_rings`, returning the recorded
cycle paths in discovery order.  Python guards with `depth > max_depth`; the
fuel here is `max_depth + 1 - depth`, so fuel 0 is exactly that guard. -/
def ring_dfs (adj : List (String × List AdjEdge)) (start : String) :
    Nat → String → List String → List String → List (List String)
  | 0, _, _, _ => []
  | fuel + 1, current, path, visited =>
    (adj_get adj current).flatMap (fun edge =>
      if edge.target = start ∧ 3 ≤ path.length then [path]
      else if edge.target ∉ visited then
        ring_dfs adj start fuel edge.target (path ++ [edge.target]) (visited ++ [edge.target])
      else [])

/-- `user_names.get(uid, uid)`. -/
def user_name (users : List User) (uid : String) : String :=
  ((users.find? (fun u => decide (u.user_id = uid))).map User.name).getD uid

/-- Wrap a discovered cycle path as the returned ring dict. -/
def mk_ring (users : List User) (p : List String) : Ring :=
  { path := p.map (fun uid => { user_id := uid, name := user_name users uid }),
    ring_length := p.length }

/-- All cycles recorded by the DFS phase of `find_laundering_rings`, in
discovery order: DFS from each of the first 50 adjacency-map keys, seeded
with path `[start]` and visited `{start}` at depth 0. -/
def all_rings (db : DB) (max_depth : Nat) : List (List String) :=
  (((build_adj db.transactions).map Prod.fst).take 50).flatMap (fun start =>
    ring_dfs (build_adj db.transactions) start (max_depth + 1) start [start] [start])

/-- The canonical form used for deduplication:
`tuple(sorted(user_ids))`, i.e. the multiset of member account ids. -/
def ring_key (r : Ring) : Multiset String := (r.path.map RingEntry.user_id : Multiset String)

/-- The dedup pass of `find_laundering_rings`: keep a ring only if its
canonical form has not been seen before. -/
def dedup_rings (seen : List (Multiset String)) : List Ring → List Ring
  | [] => []
  | r :: rs =>
    if ring_key r ∈ seen then dedup_rings seen rs
    else r :: dedup_rings (ring_key r :: seen) rs

/-- `SQLiteConnector.find_laundering_rings`: DFS-discovered cycles,
deduplicated by unordered account-id set, first 20 kept. -/
def find_laundering_rings (db : DB) (max_depth : Nat) : List Ring :=
  (dedup_rings [] ((all_rings db max_depth).map (mk_ring db.users))).take 20

/-! ## Route layer (`routes/fraud_detection.py`) -/

/-- The error taxonomy surfaced by the API routes: 404, 422 and the
generic 500. -/
inductive ApiError where
  | NotFound
  | InvalidArgument
  | ServerError
deriving Repr, DecidableEq

/-- Route `get_user_network` (`GET /user-network/{user_id}`).  FastAPI
validates `depth: int = Query(2, ge=1, le=3)` before the handler runs
(422 → `InvalidArgument`); the handler then 404s when the user is missing
and otherwise returns `get_user_subgraph`. -/
def get_user_network (db : DB) (uid : String) (depth : Int) : Except ApiError Subgraph :=
  if depth < 1 ∨ 3 < depth then .error .InvalidArgument
  else
    match get_user_by_id db uid with
    | none => .error .NotFound
    | some _ => .ok (get_user_subgraph db uid depth.toNat)

/-- Route `approve_appeal` (`POST /admin/approve-appeal/{user_id}`):
404 when the user is missing; otherwise set every PENDING appeal of the
user to APPROVED with the review timestamp, and unconditionally set the
user's status to ACTIVE. -/
def approve_appeal (db : DB) (uid : String) (now : ℚ) : Except ApiError DB :=
  match get_user_by_id db uid with
  | none => .error .NotFound
  | some _ =>
    let db1 := { db with appeals := db.appeals.map (fun a =>
      if a.user_id = uid ∧ a.status = "PENDING" then
        { a with status := "APPROVED", reviewed_at := some now }
      else a) }
    .ok (update_user_status db1 uid "ACTIVE")

/-- Route `reject_appeal` (`POST /admin/reject-appeal/{user_id}`):
404 when the user is missing; otherwise set every PENDING appeal of the
user to REJECTED with the review timestamp.  The user row is not touched. -/
def reject_appeal (db : DB) (uid : String) (now : ℚ) : Except ApiError DB :=
  match get_user_by_id db uid with
  | none => .error .NotFound
  | some _ =>
    .ok { db with appeals := db.appeals.map (fun a =>
      if a.user_id = uid ∧ a.status = "PENDING" then
        { a with status := "REJECTED", reviewed_at := some now }
      else a) }

/-! ## Spec-side risk formula (§4.3 of the spec, worded independently) -/

/-- Spec §4.3: avg_neighbor_risk is the mean stored risk of all other
accounts in the subgraph, 0.5 if there are none. -/
def avg_neighbor_risk_spec (uid : String) (g : Subgraph) : ℚ :=
  let others := (g.nodes.filter (fun n => decide (n.user_id ≠ uid))).map User.risk_score
  if others.length = 0 then 0.5 else others.sum / others.length

/-- The account's incident transactions within the subgraph. -/
def incident_links (uid : String) (g : Subgraph) : List Link :=
  g.links.filter (fun l => decide (l.source = uid ∨ l.target = uid))

/-- Spec §4.3: volume_risk = min(incident_transaction_count / 20, 1). -/
def volume_risk_spec (uid : String) (g : Subgraph) : ℚ :=
  min (((incident_links uid g).length : ℚ) / 20) 1

/-- Spec §4.3: high_value_risk = min(max_incident_amount / 100000, 1),
with 0 for an account with no incident transactions. -/
def high_value_risk_spec (uid : String) (g : Subgraph) : ℚ :=
  min ((((incident_links uid g).map Link.amount).max?.getD 0) / 100000) 1

/-- Spec §4.3: structuring_risk = min(count_of_incident_amounts_in_[9000,9999] / 3, 1). -/
def structuring_risk_spec (uid : String) (g : Subgraph) : ℚ :=
  min ((((incident_links uid g).map Link.amount).countP
    (fun a => decide (9000 ≤ a ∧ a ≤ 9999)) : ℚ) / 3) 1

/-- Spec §4.3: score = 0.30·base_risk + 0.25·avg_neighbor_risk +
0.15·volume_risk + 0.15·high_value_risk + 0.15·structuring_risk,
clamped to [0, 1]. -/
def risk_score_spec (uid : String) (user : User) (g : Subgraph) : ℚ :=
  min (max (0.30 * user.risk_score + 0.25 * avg_neighbor_risk_spec uid g +
    0.15 * volume_risk_spec uid g + 0.15 * high_value_risk_spec uid g +
    0.15 * structuring_risk_spec uid g) 0) 1

/-! ## Concrete states used as witnesses and counterexamples -/

/-- Two active accounts, no history. -/
def dbPair : DB :=
  { users :=
      [{ user_id := "A", name := "Alice", risk_score := 0.2, account_age_days := 200,
         status := "ACTIVE", balance := 100 },
       { user_id := "B", name := "Bob", risk_score := 0.3, account_age_days := 200,
         status := "ACTIVE", balance := 50 }],
    transactions := [], appeals := [] }

/-- `dbPair` after an approved A→B transfer of 10 (risk 0.5, submitted at
time 0). -/
def dbPairAfterTransfer : DB :=
  { users :=
      [{ user_id := "A", name := "Alice", risk_score := 0.2, account_age_days := 200,
         status := "ACTIVE", balance := 90 },
       { user_id := "B", name := "Bob", risk_score := 0.3, account_age_days := 200,
         status := "ACTIVE", balance := 60 }],
    transactions :=
      [{ id := 1, source_user_id := "A", target_user_id := "B", amount := 10,
         currency := "USD", transaction_type := "transfer", timestamp := 0,
         status := "APPROVED", is_suspicious := 0, ai_risk_score := 0.5 }],
    appeals := [] }

/-- The result dictionary of that approved A→B transfer of 10. -/
def resPairTransfer : TxResult :=
  { transaction_id := 1, status := "APPROVED", source_user_id := "A",
    target_user_id := "B", amount := 10, ai_risk_score := 0.5,
    structuring_detected := false, account_frozen := false,
    new_balance := 90, message := "Transaction approved" }

/-- An account with exactly 2 prior transactions of amount 9500 inside the
trailing 48-hour window (now = 100). -/
def dbTwoStructuring : DB :=
  { users :=
      [{ user_id := "A", name := "Alice", risk_score := 0.2, account_age_days := 200,
         status := "ACTIVE", balance := 20000 },
       { user_id := "B", name := "Bob", risk_score := 0.3, account_age_days := 200,
         status := "ACTIVE", balance := 50 }],
    transactions :=
      [{ id := 1, source_user_id := "A", target_user_id := "B", amount := 9500,
         currency := "USD", transaction_type := "transfer", timestamp := 98,
         status := "FLAGGED", is_suspicious := 1, ai_risk_score := 0.2 },
       { id := 2, source_user_id := "A", target_user_id := "B", amount := 9500,
         currency := "USD", transaction_type := "transfer", timestamp := 99,
         status := "FLAGGED", is_suspicious := 1, ai_risk_score := 0.2 }],
    appeals := [] }

/-- An account whose only recent activity is 3 incoming transactions of
amount 9500 inside the trailing 48-hour window (now = 100). -/
def dbThreeIncoming : DB :=
  { users :=
      [{ user_id := "A", name := "Alice", risk_score := 0.2, account_age_days := 200,
         status := "ACTIVE", balance := 100 },
       { user_id := "B", name := "Bob", risk_score := 0.3, account_age_days := 200,
         status := "ACTIVE", balance := 50000 }],
    transactions :=
      [{ id := 1, source_user_id := "B", target_user_id := "A", amount := 9500,
         currency := "USD", transaction_type := "transfer", timestamp := 97,
         status := "FLAGGED", is_suspicious := 1, ai_risk_score := 0.3 },
       { id := 2, source_user_id := "B", target_user_id := "A", amount := 9500,
         currency := "USD", transaction_type := "transfer", timestamp := 98,
         status := "FLAGGED", is_suspicious := 1, ai_risk_score := 0.3 },
       { id := 3, source_user_id := "B", target_user_id := "A", amount := 9500,
         currency := "USD", transaction_type := "transfer", timestamp := 99,
         status := "FLAGGED", is_suspicious := 1, ai_risk_score := 0.3 }],
    appeals := [] }

/-- A frozen account with one PENDING appeal. -/
def dbAppeal : DB :=
  { users :=
      [{ user_id := "D", name := "Dana", risk_score := 0.4, account_age_days := 50,
         status := "FROZEN", balance := 10 }],
    transactions := [],
    appeals :=
      [{ id := 1, user_id := "D", justification := "mistake", status := "PENDING",
         created_at := 0, reviewed_at := none }] }

/-- Three accounts forming one directed transaction cycle A → B → C → A. -/
def dbCycle : DB :=
  { users :=
      [{ user_id := "A", name := "Alice", risk_score := 0.2, account_age_days := 200,
         status := "ACTIVE", balance := 100 },
       { user_id := "B", name := "Bob", risk_score := 0.3, account_age_days := 200,
         status := "ACTIVE", balance := 100 },
       { user_id := "C", name := "Cara", risk_score := 0.4, account_age_days := 200,
         status := "ACTIVE", balance := 100 }],
    transactions :=
      [{ id := 1, source_user_id := "A", target_user_id := "B", amount := 500,
         currency := "USD", transaction_type := "transfer", timestamp := 1,
         status := "APPROVED", is_suspicious := 0, ai_risk_score := 0.1 },
       { id := 2, source_user_id := "B", target_user_id := "C", amount := 500,
         currency := "USD", transaction_type := "transfer", timestamp := 2,
         status := "APPROVED", is_suspicious := 0, ai_risk_score := 0.1 },
       { id := 3, source_user_id := "C", target_user_id := "A", amount := 500,
         currency := "USD", transaction_type := "transfer", timestamp := 3,
         status := "APPROVED", is_suspicious := 0, ai_risk_score := 0.1 }],
    appeals := [] }

/-! ## Infrastructure lemmas -/

theorem find?_map_of_user_id (f : User → User) (hf : ∀ u, (f u).user_id = u.user_id)
    (users : List User) (uid : String) :
    (users.map f).find? (fun u => decide (u.user_id = uid)) =
      (users.find? (fun u => decide (u.user_id = uid))).map f := by
  induction users with
  | nil => rfl
  | cons u us ih =>
    by_cases h : u.user_id = uid
    · simp [List.find?_cons, hf, h]
    · simp [List.find?_cons, hf, h, ih]

theorem get_user_by_id_update_status (db : DB) (uid s uid' : String) :
    get_user_by_id (update_user_status db uid s) uid' =
      (get_user_by_id db uid').map
        (fun u => if u.user_id = uid then { u with status := s } else u) := by
  unfold get_user_by_id update_user_status
  exact find?_map_of_user_id _
    (fun u => by by_cases h : u.user_id = uid <;> simp [h]) _ _

theorem get_user_by_id_update_balance (db : DB) (uid : String) (b : ℚ) (uid' : String) :
    get_user_by_id (update_user_balance db uid b) uid' =
      (get_user_by_id db uid').map
        (fun u => if u.user_id = uid then { u with balance := b } else u) := by
  unfold get_user_by_id update_user_balance
  exact find?_map_of_user_id _
    (fun u => by by_cases h : u.user_id = uid <;> simp [h]) _ _

theorem user_balance_update_status (db : DB) (uid s uid' : String) :
    user_balance (update_user_status db uid s) uid' = user_balance db uid' := by
  unfold user_balance
  rw [get_user_by_id_update_status]
  cases h : get_user_by_id db uid' with
  | none => rfl
  | some u => by_cases hu : u.user_id = uid <;> simp [hu]

theorem user_status_update_status_self (db : DB) (uid s : String) (u : User)
    (h : get_user_by_id db uid = some u) :
    user_status (update_user_status db uid s) uid = s := by
  have huid : u.user_id = uid := by
    have := List.find?_some h
    simpa using this
  unfold user_status
  rw [get_user_by_id_update_status, h]
  simp [huid]

theorem user_balance_update_balance_self (db : DB) (uid : String) (b : ℚ) (u : User)
    (h : get_user_by_id db uid = some u) :
    user_balance (update_user_balance db uid b) uid = b := by
  have huid : u.user_id = uid := by
    have := List.find?_some h
    simpa using this
  unfold user_balance
  rw [get_user_by_id_update_balance, h]
  simp [huid]

theorem user_balance_update_balance_other (db : DB) (uid : String) (b : ℚ) (uid' : String)
    (h : uid' ≠ uid) :
    user_balance (update_user_balance db uid b) uid' = user_balance db uid' := by
  unfold user_balance
  rw [get_user_by_id_update_balance]
  cases hu : get_user_by_id db uid' with
  | none => rfl
  | some u =>
    have huid : u.user_id = uid' := by
      have := List.find?_some hu
      simpa using this
    simp [huid, h]

theorem isSome_update_status (db : DB) (uid s uid' : String) :
    (get_user_by_id (update_user_status db uid s) uid').isSome =
      (get_user_by_id db uid').isSome := by
  rw [get_user_by_id_update_status]
  cases get_user_by_id db uid' <;> rfl

/-- BFS visited sets only grow with the number of rounds. -/
theorem visited_at_depth_mono (db : DB) (uid : String) (d : Nat) :
    visited_at_depth db uid d ⊆ visited_at_depth db uid (d + 1) := by
  unfold visited_at_depth
  rw [Function.iterate_succ_apply']
  exact Finset.subset_union_left

/-! ## Claims -/

/-- C7: for every focal account and every depth d ≥ 1, over the same
unchanged ledger, the node set returned by the subgraph extraction at depth
d is a subset of the node set returned at depth d+1. -/
theorem C7_subgraph_monotone (db : DB) (uid : String) (d : Nat) (_hd : 1 ≤ d) :
    ∀ u ∈ (get_user_subgraph db uid d).nodes, u ∈ (get_user_subgraph db uid (d + 1)).nodes := by
  intro u hu
  unfold get_user_subgraph at hu ⊢
  simp only [List.mem_filter, decide_eq_true_eq] at hu ⊢
  exact ⟨hu.1, visited_at_depth_mono db uid d hu.2⟩

/-- C7 witness: account "B" is in the depth-1 subgraph of "A" in the cycle
ledger, hence also in the depth-2 subgraph. -/
theorem C7_subgraph_monotone_witness :
    { user_id := "B", name := "Bob", risk_score := 0.3, account_age_days := 200,
      status := "ACTIVE", balance := 100 : User } ∈ (get_user_subgraph dbCycle "A" 2).nodes :=
  C7_subgraph_monotone dbCycle "A" 1 (by decide) _ (by with_unfolding_all decide)

/-- C8 counterexample: account "A" exists and the requested depth 4 is
positive, yet the route signals InvalidArgument instead of returning
normally (FastAPI validates depth against [1, 3], not only against 0). -/
theorem C8_depth_counterexample :
    (get_user_by_id dbPair "A").isSome = true ∧ (0 : Int) < 4 ∧
    get_user_network dbPair "A" 4 = .error ApiError.InvalidArgument :=
  ⟨by with_unfolding_all decide, by decide, by with_unfolding_all rfl⟩

/-- C8 (amended): the subgraph route signals InvalidArgument whenever the
requested depth is outside [1, 3] (in particular whenever depth ≤ 0);
for a depth inside [1, 3] it signals NotFound when the focal account does
not exist and otherwise returns the subgraph normally, performing no
writes (the returned state is untouched by construction). -/
theorem C8_network_errors (db : DB) (uid : String) (depth : Int) :
    (depth < 1 ∨ 3 < depth → get_user_network db uid depth = .error ApiError.InvalidArgument) ∧
    (1 ≤ depth → depth ≤ 3 → get_user_by_id db uid = none →
      get_user_network db uid depth = .error ApiError.NotFound) ∧
    (1 ≤ depth → depth ≤ 3 → ∀ u, get_user_by_id db uid = some u →
      get_user_network db uid depth = .ok (get_user_subgraph db uid depth.toNat)) := by
  refine ⟨fun h => ?_, fun h1 h3 hn => ?_, fun h1 h3 u hu => ?_⟩
  · unfold get_user_network
    rw [if_pos h]
  · unfold get_user_network
    rw [if_neg (by omega), hn]
  · unfold get_user_network
    rw [if_neg (by omega), hu]

/-- C8 witness: the three cases of the amended claim at concrete inputs. -/
theorem C8_network_errors_witness :
    get_user_network dbPair "A" 0 = .error ApiError.InvalidArgument ∧
    get_user_network dbPair "Z" 2 = .error ApiError.NotFound ∧
    get_user_network dbPair "A" 2 = .ok (get_user_subgraph dbPair "A" 2) :=
  ⟨(C8_network_errors dbPair "A" 0).1 (by decide),
   (C8_network_errors dbPair "Z" 2).2.1 (by decide) (by decide) (by with_unfolding_all rfl),
   (C8_network_errors dbPair "A" 2).2.2 (by decide) (by decide)
     { user_id := "A", name := "Alice", risk_score := 0.2, account_age_days := 200,
       status := "ACTIVE", balance := 100 } (by with_unfolding_all rfl)⟩

/-- C9 counterexample: after the only appeal of frozen account "D" has been
resolved (status APPROVED, no longer PENDING), a second resolution attempt
on it returns success instead of failing. -/
theorem C9_second_resolution_counterexample :
    ((approve_appeal dbAppeal "D" 1).toOption.map (fun db1 =>
      (db1.appeals.map Appeal.status, (approve_appeal db1 "D" 2).isOk))) =
      some (["APPROVED"], true) := by with_unfolding_all rfl

/-- C9 (amended): for an existing account, the approve route sets every
PENDING appeal of the account to APPROVED with its review timestamp and
transitions the account to ACTIVE, while the reject route sets every
PENDING appeal to REJECTED with its review timestamp and leaves the account
status untouched (a FROZEN account remains FROZEN); non-PENDING appeals are
never modified by either route, but a second resolution attempt on a
non-PENDING appeal still returns success (and the approve route still
re-activates the account) rather than failing. -/
theorem C9_appeal_resolution (db : DB) (uid : String) (now : ℚ) (u : User)
    (hu : get_user_by_id db uid = some u) :
    ∃ dbA dbR,
      approve_appeal db uid now = .ok dbA ∧ reject_appeal db uid now = .ok dbR ∧
      user_status dbA uid = "ACTIVE" ∧
      user_status dbR uid = user_status db uid ∧
      (∀ (i : Nat) (a : Appeal), db.appeals[i]? = some a → a.user_id = uid → a.status = "PENDING" →
        dbA.appeals[i]? = some { a with status := "APPROVED", reviewed_at := some now } ∧
        dbR.appeals[i]? = some { a with status := "REJECTED", reviewed_at := some now }) ∧
      (∀ (i : Nat) (a : Appeal), db.appeals[i]? = some a → a.user_id ≠ uid ∨ a.status ≠ "PENDING" →
        dbA.appeals[i]? = some a ∧ dbR.appeals[i]? = some a) := by
  refine ⟨update_user_status { db with appeals := db.appeals.map (fun a =>
      if a.user_id = uid ∧ a.status = "PENDING" then
        { a with status := "APPROVED", reviewed_at := some now }
      else a) } uid "ACTIVE",
    { db with appeals := db.appeals.map (fun a =>
      if a.user_id = uid ∧ a.status = "PENDING" then
        { a with status := "REJECTED", reviewed_at := some now }
      else a) },
    ?_, ?_, ?_, ?_, ?_, ?_⟩
  · simp only [approve_appeal, hu]
  · simp only [reject_appeal, hu]
  · exact user_status_update_status_self _ uid "ACTIVE" u hu
  · rfl
  · intro i a hget huid hstat
    constructor
    · show (db.appeals.map _)[i]? = _
      rw [List.getElem?_map, hget]
      simp [huid, hstat]
    · show (db.appeals.map _)[i]? = _
      rw [List.getElem?_map, hget]
      simp [huid, hstat]
  · intro i a hget hother
    have hcond : ¬ (a.user_id = uid ∧ a.status = "PENDING") := by tauto
    constructor
    · show (db.appeals.map _)[i]? = _
      rw [List.getElem?_map, hget]
      simp [hcond]
    · show (db.appeals.map _)[i]? = _
      rw [List.getElem?_map, hget]
      simp [hcond]

/-- C9 witness: the amended claim instantiated on the frozen account "D"
with its single PENDING appeal. -/
theorem C9_appeal_resolution_witness :
    ∃ dbA dbR,
      approve_appeal dbAppeal "D" 5 = .ok dbA ∧ reject_appeal dbAppeal "D" 5 = .ok dbR ∧
      user_status dbA "D" = "ACTIVE" ∧
      user_status dbR "D" = user_status dbAppeal "D" ∧
      (∀ (i : Nat) (a : Appeal), dbAppeal.appeals[i]? = some a → a.user_id = "D" → a.status = "PENDING" →
        dbA.appeals[i]? = some { a with status := "APPROVED", reviewed_at := some 5 } ∧
        dbR.appeals[i]? = some { a with status := "REJECTED", reviewed_at := some 5 }) ∧
      (∀ (i : Nat) (a : Appeal), dbAppeal.appeals[i]? = some a → a.user_id ≠ "D" ∨ a.status ≠ "PENDING" →
        dbA.appeals[i]? = some a ∧ dbR.appeals[i]? = some a) :=
  C9_appeal_resolution dbAppeal "D" 5
    { user_id := "D", name := "Dana", risk_score := 0.4, account_age_days := 50,
      status := "FROZEN", balance := 10 } (by with_unfolding_all rfl)

/-- C5: for every existing account, the risk scorer's value over the
account's 2-hop subgraph equals the spec's weighted blend
0.30·base + 0.25·avg_neighbor + 0.15·volume + 0.15·high_value +
0.15·structuring, clamped to [0, 1], with the components as the spec
defines them. -/
theorem C5_risk_blend (db : DB) (uid : String) (user : User) (g : Subgraph)
    (_hu : get_user_by_id db uid = some user)
    (_hg : g = get_user_subgraph db uid 2) :
    calculate_risk_score uid user g = risk_score_spec uid user g := by
  simp only [calculate_risk_score, risk_score_spec, avg_neighbor_risk_spec,
    volume_risk_spec, high_value_risk_spec, structuring_risk_spec, incident_links]
  congr 1
  congr 1
  by_cases h :
      ((g.nodes.filter (fun n => decide (n.user_id ≠ uid))).map User.risk_score).length = 0
  · simp only [h, if_pos, if_neg, ne_eq, not_true_eq_false, if_false, if_true]
    ring
  · simp only [h, ne_eq, not_false_eq_true, if_true, if_false]
    ring

/-- C5 witness: the blend identity evaluated on the cycle ledger. -/
theorem C5_risk_blend_witness :
    calculate_risk_score "A"
      { user_id := "A", name := "Alice", risk_score := 0.2, account_age_days := 200,
        status := "ACTIVE", balance := 100 } (get_user_subgraph dbCycle "A" 2) =
    risk_score_spec "A"
      { user_id := "A", name := "Alice", risk_score := 0.2, account_age_days := 200,
        status := "ACTIVE", balance := 100 } (get_user_subgraph dbCycle "A" 2) :=
  C5_risk_blend dbCycle "A" _ _ (by with_unfolding_all rfl) rfl

/-- Once the three structural checks pass, `create_transaction` returns the
processed outcome. -/
theorem create_transaction_checks_pass (scorer : DB → String → Except String ℚ)
    (db : DB) (src tgt : String) (amount : ℚ) (currency ttype : String) (now : ℚ)
    (su tu : User) (hs : get_user_by_id db src = some su)
    (ht : get_user_by_id db tgt = some tu)
    (hf : ¬ su.status = "FROZEN") (hb : ¬ su.balance < amount) :
    create_transaction scorer db src tgt amount currency ttype now =
      .ok (process_checked_transaction scorer db su tu src tgt amount currency ttype now) := by
  simp only [create_transaction, hs, ht, if_neg hf, if_neg hb]

/-- The processor always appends exactly one transaction record, the
`inserted_txn` row. -/
theorem process_transactions_append (scorer : DB → String → Except String ℚ)
    (db : DB) (su tu : User) (src tgt : String) (amount : ℚ)
    (currency ttype : String) (now : ℚ) :
    (process_checked_transaction scorer db su tu src tgt amount currency ttype now).1.transactions
      = db.transactions ++ [inserted_txn scorer db su src tgt amount currency ttype now] := by
  simp only [process_checked_transaction, add_transaction, update_user_status,
    update_user_balance, inserted_txn]
  split <;> split <;> rfl

/-- C4: for every submission that passes the existence, frozen-source and
balance checks, a failing risk-scorer invocation makes ai_risk_score fall
back to the source account's stored base risk, and the transaction still
reaches a terminal status (BLOCKED, FLAGGED or APPROVED) instead of
surfacing an error. -/
theorem C4_scorer_fallback (scorer : DB → String → Except String ℚ) (db : DB)
    (src tgt : String) (amount : ℚ) (currency ttype : String) (now : ℚ)
    (su tu : User) (e : String)
    (hs : get_user_by_id db src = some su) (ht : get_user_by_id db tgt = some tu)
    (hf : ¬ su.status = "FROZEN") (hb : ¬ su.balance < amount)
    (hfail : scorer db src = .error e) :
    ∃ db' res,
      create_transaction scorer db src tgt amount currency ttype now = .ok (db', res) ∧
      res.ai_risk_score = su.risk_score ∧
      (res.status = "BLOCKED" ∨ res.status = "FLAGGED" ∨ res.status = "APPROVED") ∧
      ∃ tx, db'.transactions = db.transactions ++ [tx] ∧
        tx.ai_risk_score = su.risk_score := by
  refine ⟨_, _,
    create_transaction_checks_pass scorer db src tgt amount currency ttype now su tu hs ht hf hb,
    ?_, ?_, ?_⟩
  · simp only [process_checked_transaction, effective_risk, hfail]
  · simp only [process_checked_transaction, decided_status]
    split
    · exact Or.inl rfl
    · split
      · exact Or.inr (Or.inl rfl)
      · exact Or.inr (Or.inr rfl)
  · refine ⟨inserted_txn scorer db su src tgt amount currency ttype now,
      process_transactions_append scorer db su tu src tgt amount currency ttype now, ?_⟩
    simp only [inserted_txn, effective_risk, hfail]

/-- C4 witness: a scorer that always raises, on a clean two-account state;
the transaction is approved with Alice's stored base risk 0.2. -/
theorem C4_scorer_fallback_witness :
    ∃ db' res,
      create_transaction (fun _ _ => .error "GNN failure") dbPair "A" "B" 10 "USD"
        "transfer" 0 = .ok (db', res) ∧
      res.ai_risk_score = (0.2 : ℚ) ∧
      (res.status = "BLOCKED" ∨ res.status = "FLAGGED" ∨ res.status = "APPROVED") ∧
      ∃ tx, db'.transactions = dbPair.transactions ++ [tx] ∧
        tx.ai_risk_score = (0.2 : ℚ) :=
  C4_scorer_fallback (fun _ _ => .error "GNN failure") dbPair "A" "B" 10 "USD" "transfer" 0
    { user_id := "A", name := "Alice", risk_score := 0.2, account_age_days := 200,
      status := "ACTIVE", balance := 100 }
    { user_id := "B", name := "Bob", risk_score := 0.3, account_age_days := 200,
      status := "ACTIVE", balance := 50 }
    "GNN failure" (by with_unfolding_all rfl) (by with_unfolding_all rfl)
    (by decide) (by with_unfolding_all decide) rfl

/-- The structuring detector, characterized: more than 2 in-range window
transactions after adding the candidate once when it is in range. -/
theorem detect_structuring_iff (db : DB) (uid : String) (amount now : ℚ) :
    detect_structuring db uid amount now = true ↔
      2 < (get_user_transactions_in_window db uid 48 now).countP
            (fun tx => decide (9000 ≤ tx.amount ∧ tx.amount ≤ 9999)) +
          (if 9000 ≤ amount ∧ amount ≤ 9999 then 1 else 0) := by
  simp only [detect_structuring, decide_eq_true_eq]
  by_cases h : 9000 ≤ amount ∧ amount ≤ 9999 <;> simp [h]

/-- The window query keeps every transaction that touches the account as
source or target and lies inside the trailing window. -/
theorem mem_window_of (db : DB) (uid : String) (hours now : ℚ) (tx : Txn)
    (hmem : tx ∈ db.transactions)
    (htouch : tx.source_user_id = uid ∨ tx.target_user_id = uid)
    (hts : now - hours ≤ tx.timestamp) :
    tx ∈ get_user_transactions_in_window db uid hours now := by
  simp only [get_user_transactions_in_window, List.mem_filter, decide_eq_true_eq]
  exact ⟨hmem, htouch, hts⟩

/-- A submission whose structuring check fires is blocked and freezes the
source account, provided the three structural checks pass. -/
theorem structuring_blocks (scorer : DB → String → Except String ℚ) (db : DB)
    (src tgt : String) (amount : ℚ) (currency ttype : String) (now : ℚ)
    (su tu : User) (hs : get_user_by_id db src = some su)
    (ht : get_user_by_id db tgt = some tu)
    (hf : ¬ su.status = "FROZEN") (hb : ¬ su.balance < amount)
    (hS : detect_structuring db src amount now = true) :
    ∃ db' res,
      create_transaction scorer db src tgt amount currency ttype now = .ok (db', res) ∧
      res.status = "BLOCKED" ∧ user_status db' src = "FROZEN" := by
  refine ⟨_, _,
    create_transaction_checks_pass scorer db src tgt amount currency ttype now su tu hs ht hf hb,
    ?_, ?_⟩
  · simp only [process_checked_transaction, decided_status, hS, if_true]
  · simp only [process_checked_transaction, decided_status, hS, if_true]
    rw [if_neg (by decide : ¬ ("BLOCKED" : String) = "APPROVED")]
    show user_status (update_user_status db src "FROZEN") src = "FROZEN"
    exact user_status_update_status_self db src "FROZEN" su hs

/-- C2: the structuring detector counts the account's 48-hour-window
transactions with amount in [9000, 9999], adds the candidate exactly once
when in range, and fires iff this exceeds 2; in particular an account with
exactly 2 prior 9500 transactions in the window has its next 9700
submission BLOCKED and its account FROZEN. -/
theorem C2_structuring_rule :
    (∀ (db : DB) (uid : String) (amount now : ℚ),
      detect_structuring db uid amount now = true ↔
        2 < (get_user_transactions_in_window db uid 48 now).countP
              (fun tx => decide (9000 ≤ tx.amount ∧ tx.amount ≤ 9999)) +
            (if 9000 ≤ amount ∧ amount ≤ 9999 then 1 else 0)) ∧
    (∀ (scorer : DB → String → Except String ℚ) (db : DB) (src tgt : String)
       (currency ttype : String) (now : ℚ) (su tu : User),
      get_user_by_id db src = some su → get_user_by_id db tgt = some tu →
      ¬ su.status = "FROZEN" → ¬ su.balance < 9700 →
      (get_user_transactions_in_window db src 48 now).length = 2 →
      (∀ tx ∈ get_user_transactions_in_window db src 48 now, tx.amount = 9500) →
      ∃ db' res,
        create_transaction scorer db src tgt 9700 currency ttype now = .ok (db', res) ∧
        res.status = "BLOCKED" ∧ user_status db' src = "FROZEN") := by
  refine ⟨detect_structuring_iff, ?_⟩
  intro scorer db src tgt currency ttype now su tu hs ht hf hb hlen hall
  have hall2 : ∀ tx ∈ get_user_transactions_in_window db src 48 now,
      (decide (9000 ≤ tx.amount ∧ tx.amount ≤ 9999)) = true := by
    intro tx htx
    have h95 := hall tx htx
    simp only [h95, decide_eq_true_eq]
    norm_num
  have hcount : (get_user_transactions_in_window db src 48 now).countP
      (fun tx => decide (9000 ≤ tx.amount ∧ tx.amount ≤ 9999)) = 2 := by
    rw [List.countP_eq_length.mpr hall2, hlen]
  have hS : detect_structuring db src 9700 now = true := by
    rw [detect_structuring_iff, hcount]
    norm_num
  exact structuring_blocks scorer db src tgt 9700 currency ttype now su tu hs ht hf hb hS

/-- C2 witness: the scenario instantiated on a concrete ledger with two
prior 9500 transactions in the window. -/
theorem C2_structuring_rule_witness :
    ∃ db' res,
      create_transaction (fun _ _ => .ok 0.5) dbTwoStructuring "A" "B" 9700 "USD"
        "transfer" 100 = .ok (db', res) ∧
      res.status = "BLOCKED" ∧ user_status db' "A" = "FROZEN" :=
  C2_structuring_rule.2 (fun _ _ => .ok 0.5) dbTwoStructuring "A" "B" "USD" "transfer" 100
    { user_id := "A", name := "Alice", risk_score := 0.2, account_age_days := 200,
      status := "ACTIVE", balance := 20000 }
    { user_id := "B", name := "Bob", risk_score := 0.3, account_age_days := 200,
      status := "ACTIVE", balance := 50 }
    (by with_unfolding_all rfl) (by with_unfolding_all rfl) (by decide)
    (by norm_num)
    (by norm_num [get_user_transactions_in_window, dbTwoStructuring, List.filter_cons])
    (by
      have hw : get_user_transactions_in_window dbTwoStructuring "A" 48 100 =
          dbTwoStructuring.transactions := by
        norm_num [get_user_transactions_in_window, dbTwoStructuring, List.filter_cons]
      rw [hw]
      norm_num [dbTwoStructuring])

/-- C10: the trailing-window history counts transactions where the account
is source or target; hence an account whose only window activity is 3
incoming 9500 transactions has its next outgoing submission of any amount
BLOCKED and the account FROZEN. -/
theorem C10_window_both_directions :
    (∀ (db : DB) (uid : String) (hours now : ℚ) (tx : Txn),
      tx ∈ db.transactions →
      tx.source_user_id = uid ∨ tx.target_user_id = uid →
      now - hours ≤ tx.timestamp →
      tx ∈ get_user_transactions_in_window db uid hours now) ∧
    (∀ (scorer : DB → String → Except String ℚ) (db : DB) (src tgt : String)
       (amount : ℚ) (currency ttype : String) (now : ℚ) (su tu : User),
      get_user_by_id db src = some su → get_user_by_id db tgt = some tu →
      ¬ su.status = "FROZEN" → ¬ su.balance < amount →
      (get_user_transactions_in_window db src 48 now).length = 3 →
      (∀ tx ∈ get_user_transactions_in_window db src 48 now,
        tx.target_user_id = src ∧ tx.amount = 9500) →
      ∃ db' res,
        create_transaction scorer db src tgt amount currency ttype now = .ok (db', res) ∧
        res.status = "BLOCKED" ∧ user_status db' src = "FROZEN") := by
  refine ⟨mem_window_of, ?_⟩
  intro scorer db src tgt amount currency ttype now su tu hs ht hf hb hlen hall
  have hall2 : ∀ tx ∈ get_user_transactions_in_window db src 48 now,
      (decide (9000 ≤ tx.amount ∧ tx.amount ≤ 9999)) = true := by
    intro tx htx
    have h95 := (hall tx htx).2
    simp only [h95, decide_eq_true_eq]
    norm_num
  have hcount : (get_user_transactions_in_window db src 48 now).countP
      (fun tx => decide (9000 ≤ tx.amount ∧ tx.amount ≤ 9999)) = 3 := by
    rw [List.countP_eq_length.mpr hall2, hlen]
  have hS : detect_structuring db src amount now = true := by
    rw [detect_structuring_iff, hcount]
    split <;> norm_num
  exact structuring_blocks scorer db src tgt amount currency ttype now su tu hs ht hf hb hS

/-- C10 witness: the scenario instantiated on a concrete ledger with three
incoming 9500 transactions; the outgoing submission has amount 10. -/
theorem C10_window_both_directions_witness :
    ∃ db' res,
      create_transaction (fun _ _ => .ok 0.5) dbThreeIncoming "A" "B" 10 "USD"
        "transfer" 100 = .ok (db', res) ∧
      res.status = "BLOCKED" ∧ user_status db' "A" = "FROZEN" :=
  C10_window_both_directions.2 (fun _ _ => .ok 0.5) dbThreeIncoming "A" "B" 10 "USD"
    "transfer" 100
    { user_id := "A", name := "Alice", risk_score := 0.2, account_age_days := 200,
      status := "ACTIVE", balance := 100 }
    { user_id := "B", name := "Bob", risk_score := 0.3, account_age_days := 200,
      status := "ACTIVE", balance := 50000 }
    (by with_unfolding_all rfl) (by with_unfolding_all rfl) (by decide)
    (by norm_num)
    (by norm_num [get_user_transactions_in_window, dbThreeIncoming, List.filter_cons])
    (by
      have hw : get_user_transactions_in_window dbThreeIncoming "A" 48 100 =
          dbThreeIncoming.transactions := by
        norm_num [get_user_transactions_in_window, dbThreeIncoming, List.filter_cons]
      rw [hw]
      norm_num [dbThreeIncoming])

/-- C1: for every submission that passes the existence, frozen-source and
balance checks, should_flag is exactly the disjunction (structuring) OR
(high velocity) OR (amount in [9000, 9999]) OR (amount > 50000) OR
(ai_risk_score > 0.7); the final status is BLOCKED on structuring (with the
source account frozen as a side effect), else FLAGGED when should_flag,
else APPROVED; and the persisted record's suspicious flag is 1 iff
should_flag. -/
theorem C1_decision_rule (scorer : DB → String → Except String ℚ) (db : DB)
    (src tgt : String) (amount : ℚ) (currency ttype : String) (now : ℚ)
    (su tu : User)
    (hs : get_user_by_id db src = some su) (ht : get_user_by_id db tgt = some tu)
    (hf : ¬ su.status = "FROZEN") (hb : ¬ su.balance < amount) :
    ∃ db' res,
      create_transaction scorer db src tgt amount currency ttype now = .ok (db', res) ∧
      (should_flag_bool scorer db su src amount now = true ↔
        (detect_structuring db src amount now = true ∨
         detect_high_velocity db src now = true ∨
         (9000 ≤ amount ∧ amount ≤ 9999) ∨ 50000 < amount ∨
         (0.7 : ℚ) < effective_risk scorer db src su)) ∧
      res.ai_risk_score = effective_risk scorer db src su ∧
      res.status = (if detect_structuring db src amount now = true then "BLOCKED"
        else if should_flag_bool scorer db su src amount now = true then "FLAGGED"
        else "APPROVED") ∧
      (detect_structuring db src amount now = true → user_status db' src = "FROZEN") ∧
      ∃ tx, db'.transactions = db.transactions ++ [tx] ∧
        (tx.is_suspicious = 1 ↔ should_flag_bool scorer db su src amount now = true) ∧
        tx.status = res.status := by
  refine ⟨_, _,
    create_transaction_checks_pass scorer db src tgt amount currency ttype now su tu hs ht hf hb,
    ?_, rfl, rfl, ?_, ?_⟩
  · simp only [should_flag_bool, Bool.or_eq_true, decide_eq_true_eq]
    tauto
  · intro hS
    simp only [process_checked_transaction, decided_status, hS, if_true]
    rw [if_neg (by decide : ¬ ("BLOCKED" : String) = "APPROVED")]
    show user_status (update_user_status db src "FROZEN") src = "FROZEN"
    exact user_status_update_status_self db src "FROZEN" su hs
  · refine ⟨inserted_txn scorer db su src tgt amount currency ttype now,
      process_transactions_append scorer db su tu src tgt amount currency ttype now, ?_, rfl⟩
    simp only [inserted_txn]
    by_cases hflag : should_flag_bool scorer db su src amount now = true <;> simp [hflag]

/-- C1 witness: the decision contract instantiated on a clean two-account
state with a submission of amount 10 and a scorer returning 0.5. -/
theorem C1_decision_rule_witness :
    ∃ db' res,
      create_transaction (fun _ _ => .ok 0.5) dbPair "A" "B" 10 "USD" "transfer" 0
        = .ok (db', res) ∧
      (should_flag_bool (fun _ _ => .ok 0.5) dbPair
          { user_id := "A", name := "Alice", risk_score := 0.2, account_age_days := 200,
            status := "ACTIVE", balance := 100 } "A" 10 0 = true ↔
        (detect_structuring dbPair "A" 10 0 = true ∨
         detect_high_velocity dbPair "A" 0 = true ∨
         ((9000 : ℚ) ≤ 10 ∧ (10 : ℚ) ≤ 9999) ∨ (50000 : ℚ) < 10 ∨
         (0.7 : ℚ) < effective_risk (fun _ _ => .ok 0.5) dbPair "A"
          { user_id := "A", name := "Alice", risk_score := 0.2, account_age_days := 200,
            status := "ACTIVE", balance := 100 })) ∧
      res.ai_risk_score = effective_risk (fun _ _ => .ok 0.5) dbPair "A"
          { user_id := "A", name := "Alice", risk_score := 0.2, account_age_days := 200,
            status := "ACTIVE", balance := 100 } ∧
      res.status = (if detect_structuring dbPair "A" 10 0 = true then "BLOCKED"
        else if should_flag_bool (fun _ _ => .ok 0.5) dbPair
            { user_id := "A", name := "Alice", risk_score := 0.2, account_age_days := 200,
              status := "ACTIVE", balance := 100 } "A" 10 0 = true then "FLAGGED"
        else "APPROVED") ∧
      (detect_structuring dbPair "A" 10 0 = true → user_status db' "A" = "FROZEN") ∧
      ∃ tx, db'.transactions = dbPair.transactions ++ [tx] ∧
        (tx.is_suspicious = 1 ↔ should_flag_bool (fun _ _ => .ok 0.5) dbPair
          { user_id := "A", name := "Alice", risk_score := 0.2, account_age_days := 200,
            status := "ACTIVE", balance := 100 } "A" 10 0 = true) ∧
        tx.status = res.status :=
  C1_decision_rule (fun _ _ => .ok 0.5) dbPair "A" "B" 10 "USD" "transfer" 0
    { user_id := "A", name := "Alice", risk_score := 0.2, account_age_days := 200,
      status := "ACTIVE", balance := 100 }
    { user_id := "B", name := "Bob", risk_score := 0.3, account_age_days := 200,
      status := "ACTIVE", balance := 50 }
    (by with_unfolding_all rfl) (by with_unfolding_all rfl)
    (by decide) (by with_unfolding_all decide)

/-- Inversion: a successful submission means the three structural checks
passed and the outcome is the processed one. -/
theorem create_transaction_ok_inv (scorer : DB → String → Except String ℚ) (db : DB)
    (src tgt : String) (amount : ℚ) (currency ttype : String) (now : ℚ)
    (db' : DB) (res : TxResult)
    (h : create_transaction scorer db src tgt amount currency ttype now = .ok (db', res)) :
    ∃ su tu, get_user_by_id db src = some su ∧ get_user_by_id db tgt = some tu ∧
      ¬ su.status = "FROZEN" ∧ ¬ su.balance < amount ∧
      db' = (process_checked_transaction scorer db su tu src tgt amount currency ttype now).1 ∧
      res = (process_checked_transaction scorer db su tu src tgt amount currency ttype now).2 := by
  unfold create_transaction at h
  cases hs : get_user_by_id db src with
  | none => rw [hs] at h; cases h
  | some su =>
    rw [hs] at h
    cases ht : get_user_by_id db tgt with
    | none => rw [ht] at h; cases h
    | some tu =>
      rw [ht] at h
      have h2 : (if su.status = "FROZEN" then
          (Except.error "Account is frozen. Cannot process transactions." :
            Except String (DB × TxResult))
        else if su.balance < amount then .error "Insufficient balance"
        else .ok (process_checked_transaction scorer db su tu src tgt amount currency
          ttype now)) = .ok (db', res) := h
      by_cases hf : su.status = "FROZEN"
      · rw [if_pos hf] at h2; cases h2
      · rw [if_neg hf] at h2
        by_cases hb : su.balance < amount
        · rw [if_pos hb] at h2; cases h2
        · rw [if_neg hb] at h2
          have heq := Except.ok.inj h2
          exact ⟨su, tu, rfl, rfl, hf, hb,
            (congrArg Prod.fst heq).symm, (congrArg Prod.snd heq).symm⟩

/-- Structuring forces the flag. -/
theorem structuring_implies_flag (scorer : DB → String → Except String ℚ) (db : DB)
    (su : User) (src : String) (amount now : ℚ)
    (hS : detect_structuring db src amount now = true) :
    should_flag_bool scorer db su src amount now = true := by
  simp [should_flag_bool, hS]

/-- The decided status is APPROVED exactly when nothing flags. -/
theorem decided_status_approved (scorer : DB → String → Except String ℚ) (db : DB)
    (su : User) (src : String) (amount now : ℚ) :
    decided_status scorer db su src amount now = "APPROVED" ↔
      should_flag_bool scorer db su src amount now = false := by
  unfold decided_status
  by_cases hS : detect_structuring db src amount now = true
  · simp [hS, structuring_implies_flag scorer db su src amount now hS]
  · simp only [hS, if_false]
    by_cases hF : should_flag_bool scorer db su src amount now = true <;> simp [hF]

/-- C3 (amended): for every processed transaction of amount A from X to Y
with X ≠ Y, APPROVED means X is debited by exactly A, Y is credited by
exactly A, and no other balance changes; a non-APPROVED outcome changes no
balance at all; and debit and credit are applied together or not at all.
(When X = Y the code's second UPDATE overwrites the first, leaving the
account credited by A instead of unchanged.) -/
theorem C3_balance_conservation (scorer : DB → String → Except String ℚ) (db : DB)
    (src tgt : String) (amount : ℚ) (currency ttype : String) (now : ℚ)
    (db' : DB) (res : TxResult)
    (h : create_transaction scorer db src tgt amount currency ttype now = .ok (db', res)) :
    (res.status = "APPROVED" → src ≠ tgt →
      user_balance db' src = user_balance db src - amount ∧
      user_balance db' tgt = user_balance db tgt + amount ∧
      (∀ uid, uid ≠ src → uid ≠ tgt → user_balance db' uid = user_balance db uid)) ∧
    (¬ res.status = "APPROVED" → ∀ uid, user_balance db' uid = user_balance db uid) := by
  obtain ⟨su, tu, hs, ht, hf, hb, hdb', hres⟩ :=
    create_transaction_ok_inv scorer db src tgt amount currency ttype now db' res h
  subst hdb' hres
  have hsrc_bal : user_balance db src = su.balance := by
    unfold user_balance
    rw [hs]
    rfl
  have htgt_bal : user_balance db tgt = tu.balance := by
    unfold user_balance
    rw [ht]
    rfl
  have htu_id : tu.user_id = tgt := by
    have := List.find?_some ht
    simpa using this
  constructor
  · intro hap hne
    have hap' : decided_status scorer db su src amount now = "APPROVED" := hap
    have hFlag : should_flag_bool scorer db su src amount now = false :=
      (decided_status_approved scorer db su src amount now).mp hap'
    have hS : ¬ detect_structuring db src amount now = true := by
      intro hS'
      rw [structuring_implies_flag scorer db su src amount now hS'] at hFlag
      cases hFlag
    simp only [process_checked_transaction, hS, if_false, hap', if_true]
    have hX : get_user_by_id
        (add_transaction db src tgt amount currency ttype
          (decided_status scorer db su src amount now)
          (if should_flag_bool scorer db su src amount now = true then 1 else 0)
          (effective_risk scorer db src su) now).2 src = some su := hs
    have hX2 : get_user_by_id
        (update_user_balance
          (add_transaction db src tgt amount currency ttype
            (decided_status scorer db su src amount now)
            (if should_flag_bool scorer db su src amount now = true then 1 else 0)
            (effective_risk scorer db src su) now).2 src (su.balance - amount)) tgt
        = some tu := by
      rw [get_user_by_id_update_balance]
      rw [show get_user_by_id
        (add_transaction db src tgt amount currency ttype
          (decided_status scorer db su src amount now)
          (if should_flag_bool scorer db su src amount now = true then 1 else 0)
          (effective_risk scorer db src su) now).2 tgt = some tu from ht]
      simp [htu_id, Ne.symm hne]
    refine ⟨?_, ?_, ?_⟩
    · rw [user_balance_update_balance_other _ tgt _ src hne, hsrc_bal]
      exact user_balance_update_balance_self _ src _ su hX
    · rw [htgt_bal]
      exact user_balance_update_balance_self _ tgt _ tu hX2
    · intro uid hus hut
      rw [user_balance_update_balance_other _ tgt _ uid hut,
        user_balance_update_balance_other _ src _ uid hus]
      rfl
  · intro hnap
    intro uid
    have hnap' : ¬ decided_status scorer db su src amount now = "APPROVED" := hnap
    simp only [process_checked_transaction, hnap', if_false]
    by_cases hS : detect_structuring db src amount now = true
    · rw [if_pos hS]
      exact user_balance_update_status db src "FROZEN" uid
    · rw [if_neg hS]
      rfl

/-- C3 counterexample: a self-transfer A→A of amount 10 from balance 100 is
APPROVED, yet the final balance is 110 = pre + A rather than the debited
pre − A = 90: with source = target the second balance UPDATE overwrites the
first, so the conjunction claimed for every processed transaction fails. -/
theorem C3_self_transfer_counterexample :
    user_balance dbPair "A" = 100 ∧
    ((create_transaction (fun _ _ => .ok 0.5) dbPair "A" "A" 10 "USD" "transfer"
        0).toOption.map (fun p => (p.2.status, user_balance p.1 "A")))
      = some ("APPROVED", 110) :=
  ⟨by with_unfolding_all rfl, by with_unfolding_all rfl⟩

/-- C3 witness: the amended conservation statement on an approved A→B
transfer of 10 from balance 100. -/
theorem C3_balance_conservation_witness :
    (resPairTransfer.status = "APPROVED" → "A" ≠ "B" →
      user_balance dbPairAfterTransfer "A" = user_balance dbPair "A" - 10 ∧
      user_balance dbPairAfterTransfer "B" = user_balance dbPair "B" + 10 ∧
      (∀ uid, uid ≠ "A" → uid ≠ "B" →
        user_balance dbPairAfterTransfer uid = user_balance dbPair uid)) ∧
    (¬ resPairTransfer.status = "APPROVED" →
      ∀ uid, user_balance dbPairAfterTransfer uid = user_balance dbPair uid) :=
  C3_balance_conservation (fun _ _ => .ok 0.5) dbPair "A" "B" 10 "USD" "transfer" 0
    dbPairAfterTransfer resPairTransfer (by with_unfolding_all rfl)

/-- Every path recorded by the ring DFS is duplicate-free and has at least
3 accounts, provided the running path is duplicate-free and contained in
the visited set (as it is at every call site). -/
theorem ring_dfs_sound (adj : List (String × List AdjEdge)) (start : String) :
    ∀ (fuel : Nat) (current : String) (path visited : List String),
      path.Nodup → (∀ x ∈ path, x ∈ visited) →
      ∀ p ∈ ring_dfs adj start fuel current path visited, p.Nodup ∧ 3 ≤ p.length := by
  intro fuel
  induction fuel with
  | zero =>
    intro current path visited _ _ p hp
    simp [ring_dfs] at hp
  | succ n ih =>
    intro current path visited hnd hsub p hp
    simp only [ring_dfs, List.mem_flatMap] at hp
    obtain ⟨edge, _, hp⟩ := hp
    by_cases hc : edge.target = start ∧ 3 ≤ path.length
    · rw [if_pos hc] at hp
      rw [List.mem_singleton] at hp
      subst hp
      exact ⟨hnd, hc.2⟩
    · rw [if_neg hc] at hp
      by_cases hv : edge.target ∉ visited
      · rw [if_pos hv] at hp
        refine ih edge.target (path ++ [edge.target]) (visited ++ [edge.target]) ?_ ?_ p hp
        · rw [List.nodup_append]
          refine ⟨hnd, List.nodup_singleton _, ?_⟩
          intro x hx
          simp only [List.mem_singleton]
          intro hxt
          exact hv (hxt ▸ hsub x hx)
        · intro x hx
          rcases List.mem_append.mp hx with hx' | hx'
          · exact List.mem_append.mpr (Or.inl (hsub x hx'))
          · exact List.mem_append.mpr (Or.inr hx')
      · rw [if_neg hv] at hp
        simp at hp

/-- Every cycle recorded in the discovery phase is duplicate-free with at
least 3 accounts. -/
theorem all_rings_sound (db : DB) (max_depth : Nat) :
    ∀ p ∈ all_rings db max_depth, p.Nodup ∧ 3 ≤ p.length := by
  intro p hp
  simp only [all_rings, List.mem_flatMap] at hp
  obtain ⟨start, _, hp⟩ := hp
  exact ring_dfs_sound _ start (max_depth + 1) start [start] [start]
    (List.nodup_singleton start) (fun x hx => hx) p hp

/-- The dedup pass returns a sublist of its input (so discovery order is
preserved). -/
theorem dedup_rings_sublist :
    ∀ (rs : List Ring) (seen : List (Multiset String)),
      (dedup_rings seen rs).Sublist rs := by
  intro rs
  induction rs with
  | nil => intro seen; exact List.Sublist.refl _
  | cons r rs ih =>
    intro seen
    unfold dedup_rings
    by_cases h : ring_key r ∈ seen
    · rw [if_pos h]
      exact (ih seen).cons r
    · rw [if_neg h]
      exact (ih (ring_key r :: seen)).cons₂ r

/-- Rings surviving the dedup pass have keys outside the seen set. -/
theorem mem_dedup_rings_not_seen :
    ∀ (rs : List Ring) (seen : List (Multiset String)) (r : Ring),
      r ∈ dedup_rings seen rs → ring_key r ∉ seen := by
  intro rs
  induction rs with
  | nil => intro seen r hr; simp [dedup_rings] at hr
  | cons r' rs ih =>
    intro seen r hr
    unfold dedup_rings at hr
    by_cases h : ring_key r' ∈ seen
    · rw [if_pos h] at hr
      exact ih seen r hr
    · rw [if_neg h] at hr
      rcases List.mem_cons.mp hr with hr' | hr'
      · subst hr'
        exact h
      · intro hseen
        exact ih (ring_key r' :: seen) r hr' (List.mem_cons_of_mem _ hseen)

/-- Each ring kept by the dedup pass is the first input ring carrying its
unordered account-id set. -/
theorem dedup_rings_first :
    ∀ (rs : List Ring) (seen : List (Multiset String)) (r : Ring),
      r ∈ dedup_rings seen rs →
      rs.find? (fun s => decide (ring_key s = ring_key r)) = some r := by
  intro rs
  induction rs with
  | nil => intro seen r hr; simp [dedup_rings] at hr
  | cons r' rs ih =>
    intro seen r hr
    unfold dedup_rings at hr
    by_cases h : ring_key r' ∈ seen
    · rw [if_pos h] at hr
      have hne : ¬ ring_key r' = ring_key r := by
        intro heq
        exact mem_dedup_rings_not_seen rs seen r hr (heq ▸ h)
      simp only [List.find?_cons, hne, decide_False]
      exact ih seen r hr
    · rw [if_neg h] at hr
      rcases List.mem_cons.mp hr with hr' | hr'
      · subst hr'
        simp [List.find?_cons]
      · have hnotin := mem_dedup_rings_not_seen rs (ring_key r' :: seen) r hr'
        have hne : ¬ ring_key r' = ring_key r := by
          intro heq
          exact hnotin (heq ▸ List.mem_cons_self _ _)
        simp only [List.find?_cons, hne, decide_False]
        exact ih (ring_key r' :: seen) r hr'

/-- C6: every returned ring is a path of at least 3 accounts with no
duplicate account; among rings with equal unordered account-id sets only
the first discovered is kept; and the output is at most 20 rings in
discovery order (a sublist of the discovery-order list). -/
theorem C6_ring_detection (db : DB) :
    (find_laundering_rings db 6).length ≤ 20 ∧
    (find_laundering_rings db 6).Sublist ((all_rings db 6).map (mk_ring db.users)) ∧
    ∀ r ∈ find_laundering_rings db 6,
      3 ≤ r.path.length ∧ (r.path.map RingEntry.user_id).Nodup ∧
      ((all_rings db 6).map (mk_ring db.users)).find?
        (fun s => decide (ring_key s = ring_key r)) = some r := by
  refine ⟨?_, ?_, ?_⟩
  · unfold find_laundering_rings
    rw [List.length_take]
    exact min_le_left _ _
  · unfold find_laundering_rings
    exact (List.take_sublist _ _).trans (dedup_rings_sublist _ [])
  · intro r hr
    have hr' : r ∈ dedup_rings [] ((all_rings db 6).map (mk_ring db.users)) := by
      unfold find_laundering_rings at hr
      exact List.mem_of_mem_take hr
    have hmem : r ∈ (all_rings db 6).map (mk_ring db.users) :=
      (dedup_rings_sublist _ []).subset hr'
    obtain ⟨p, hp, hmk⟩ := List.mem_map.mp hmem
    obtain ⟨hnd, hlen⟩ := all_rings_sound db 6 p hp
    refine ⟨?_, ?_, dedup_rings_first _ [] r hr'⟩
    · rw [← hmk]
      simpa [mk_ring] using hlen
    · rw [← hmk]
      simpa [mk_ring, List.map_map, Function.comp_def] using hnd

/-- C6 witness: the cycle ledger produces the single ring A → B → C, which
satisfies all three returned-ring properties. -/
theorem C6_ring_detection_witness :
    3 ≤ (mk_ring dbCycle.users ["A", "B", "C"]).path.length ∧
    ((mk_ring dbCycle.users ["A", "B", "C"]).path.map RingEntry.user_id).Nodup ∧
    ((all_rings dbCycle 6).map (mk_ring dbCycle.users)).find?
      (fun s => decide (ring_key s = ring_key (mk_ring dbCycle.users ["A", "B", "C"])))
      = some (mk_ring dbCycle.users ["A", "B", "C"]) :=
  (C6_ring_detection dbCycle).2.2 (mk_ring dbCycle.users ["A", "B", "C"])
    (by with_unfolding_all decide)

end AML
